import Mathlib

/-!
Shallow embedding of `src/main.rs` of the automerge-rs vgtk example: a
two-replica collaborative editor demo.  Each window owns a `Doc` (an
automerge frontend plus a GTK text buffer); a background thread owns two
automerge backends, applies change requests arriving on two channels, and
cross-propagates each backend's full change log to the other.

The automerge frontend/backend crates are external black boxes (spec §6);
their capabilities used here are modelled from the spec: a document is a
map with a counter and a text sequence, changes are batches of operations,
a backend keeps an append-only change log and deduplicates already-seen
changes when merging remote history.
-/

namespace AutomergeDemo

/-- The operations the app issues through `LocalChange`:
`set(counts, Counter(0))` and `set(text, "")` in `Doc::new`,
`insert(text[pos], ch)` in the insert-text handler,
`delete(text[i])` in the delete-range handler, and
`increment(counts)` in `inc_counter`. -/
inductive Op where
  | setCounter0 : Op
  | setTextEmpty : Op
  | insertCh (i : Nat) (c : Char) : Op
  | del (i : Nat) : Op
  | increment : Op
deriving DecidableEq, Repr

/-- Modelled from the spec: the document state automerge maintains for this
app, a map with a counter field `counts` and a text field `text`
(spec §3).  `counter_value` in the code reads `counts` with a default of 0,
so the pre-initialization value is represented as 0 directly. -/
structure DocState where
  counter : Int
  text : List Char
deriving DecidableEq, Repr

def initDocState : DocState := ⟨0, []⟩

/-- Modelled from the spec: the effect of one operation on the document
state.  The counter is mutable only by increment (spec §3); text by
insert-at-index and delete-at-index. -/
def applyOp (st : DocState) (o : Op) : DocState :=
  match o with
  | Op.setCounter0 => { st with counter := 0 }
  | Op.setTextEmpty => { st with text := [] }
  | Op.insertCh i c => { st with text := st.text.insertIdx i c }
  | Op.del i => { st with text := st.text.eraseIdx i }
  | Op.increment => { st with counter := st.counter + 1 }

def applyOps (st : DocState) (ops : List Op) : DocState :=
  ops.foldl applyOp st

/-- A change request / change: an ordered batch of operations produced by
one frontend (`amp::Request` / automerge `Change`).  `actor` is the
producing replica's actor identifier; `seq` its per-actor sequence number.
`(actor, seq)` identifies the change uniquely in automerge; `changeId`
below is that identity. -/
structure Change where
  actor : String
  seq : Nat
  ops : List Op
deriving DecidableEq, Repr

def Change.changeId (c : Change) : String × Nat := (c.actor, c.seq)

/-- A patch produced by a backend (`amp::Patch`): tagged with the actor of
the local change it responds to (`none` for patches produced by applying
remote changes), and carrying the operations the receiving frontend merges
into its state.  Modelled from the spec: a patch is "a state delta ...
tagged with the originating Actor Identifier" (spec §3). -/
structure Patch where
  actor : Option String
  ops : List Op
deriving DecidableEq, Repr

/-- Modelled from the spec: a backend store is its append-only change log
(spec §3 "Change Log"); its canonical state is derived from the log. -/
structure Backend where
  log : List Change
deriving DecidableEq, Repr

/-- `Backend::init()`. -/
def Backend.init : Backend := ⟨[]⟩

/-- The canonical document state a backend reports: the fold of its change
log over the initial state. -/
def Backend.state (b : Backend) : DocState :=
  b.log.foldl (fun st c => applyOps st c.ops) initDocState

/-- `backend.get_changes(&deps)`: the changes whose identity is not covered
by the dependency set.  The loop always passes `&[]`, requesting full
history. -/
def Backend.getChanges (b : Backend) (deps : List (String × Nat)) : List Change :=
  b.log.filter (fun c => ¬ c.changeId ∈ deps)

/-- `backend.apply_local_change(req)`: appends the change to the log and
returns the patch echoing the originating actor. -/
def Backend.applyLocalChange (b : Backend) (c : Change) : Backend × Patch :=
  (⟨b.log ++ [c]⟩, ⟨some c.actor, c.ops⟩)

/-- Merging a single remote change: appended to the log unless a change
with the same identity has already been seen. -/
def Backend.addChange (b : Backend) (c : Change) : Backend :=
  if b.log.any (fun d => d.changeId = c.changeId) then b else ⟨b.log ++ [c]⟩

/-- `backend.apply_changes(cs)`: merges foreign history, skipping changes
already in the log (automerge deduplicates by change identity), and
returns a patch with no originating local actor. -/
def Backend.applyChanges (b : Backend) (cs : List Change) : Backend × Patch :=
  let b' := cs.foldl Backend.addChange b
  let fresh := b'.log.drop b.log.length
  (b', ⟨none, fresh.foldl (fun acc c => acc ++ c.ops) []⟩)

/-- Which replica's channel a request arrived on (`rx1` vs `rx2`). -/
inductive Source where
  | A : Source
  | B : Source
deriving DecidableEq, Repr

/-- The state owned by the backend thread: the two backends. -/
structure LoopState where
  backend1 : Backend
  backend2 : Backend
deriving DecidableEq, Repr

def initLoopState : LoopState := ⟨Backend.init, Backend.init⟩

/-- One iteration of the `crossbeam::select!` loop body for a request
(`src/main.rs` lines 313-321): apply the request as a local change to the
origin backend, pull that backend's full change log (`get_changes(&[])`),
apply it to the other backend as remote changes, and return the new state
together with the two patches published as one `Message::Patch`. -/
def stepState (s : LoopState) (src : Source) (c : Change) : LoopState × Patch × Patch :=
  match src with
  | Source.A =>
    let (b1, patch1) := s.backend1.applyLocalChange c
    let (b2, patch2) := s.backend2.applyChanges (b1.getChanges [])
    (⟨b1, b2⟩, patch1, patch2)
  | Source.B =>
    let (b2, patch2) := s.backend2.applyLocalChange c
    let (b1, patch1) := s.backend1.applyChanges (b2.getChanges [])
    (⟨b1, b2⟩, patch1, patch2)

/-- Draining a whole interleaving of requests through the loop. -/
def runRequests (s : LoopState) (reqs : List (Source × Change)) : LoopState :=
  reqs.foldl (fun acc r => (stepState acc r.1 r.2).1) s

/-! ### The frontend side: `Doc` and its GTK text buffer -/

/-- Modelled from the spec: the automerge frontend owned by one `Doc` — an
actor identifier fixed at creation, a per-actor sequence number for the
next change, and the optimistic local document state. -/
structure Frontend where
  actorId : String
  seq : Nat
  st : DocState
deriving DecidableEq, Repr

/-- `Frontend::new()` with a given actor identifier. -/
def Frontend.new (actor : String) : Frontend := ⟨actor, 1, initDocState⟩

/-- `frontend.change(None, |doc| ...)`: applies the batched local changes
optimistically and returns the change request to propagate (`none` when
the batch is empty and there is nothing to propagate). -/
def Frontend.change (fr : Frontend) (ops : List Op) : Frontend × Option Change :=
  match ops with
  | [] => (fr, none)
  | _ =>
    (⟨fr.actorId, fr.seq + 1, applyOps fr.st ops⟩, some ⟨fr.actorId, fr.seq, ops⟩)

/-- An edit-intent notification fired by the GTK text buffer: the
`connect_insert_text` and `connect_delete_range` signals that feed
`localEdit`. -/
inductive EditIntent where
  | insertText (pos : Nat) (s : List Char) : EditIntent
  | deleteRange (start finish : Nat) : EditIntent
deriving DecidableEq, Repr

/-- The GTK `TextBuffer` as the app uses it: its text, and whether the two
edit signals are currently blocked (`block_signal` on
`insert_text_sigid` / `del_sig_id`). -/
structure GtkBuffer where
  text : List Char
  insertBlocked : Bool
  delBlocked : Bool
deriving DecidableEq, Repr

/-- `buffer.set_text(s)`: replaces the buffer contents.  GTK implements
this as a delete of the whole existing range followed by an insert, each
of which fires its signal unless that signal is blocked; the fired
edit-intent notifications are returned alongside the updated buffer. -/
def GtkBuffer.setText (b : GtkBuffer) (s : List Char) : GtkBuffer × List EditIntent :=
  let delFired : List EditIntent :=
    if b.delBlocked then [] else [EditIntent.deleteRange 0 b.text.length]
  let insFired : List EditIntent :=
    if b.insertBlocked then [] else [EditIntent.insertText 0 s]
  ({ b with text := s }, delFired ++ insFired)

/-- The `Doc` struct: the frontend behind its `Rc<RefCell<_>>`, and the
text buffer with its two signal handler ids. -/
structure Doc where
  frontend : Frontend
  buffer : GtkBuffer
deriving DecidableEq, Repr

/-- `Doc::new(sx)` (`src/main.rs` lines 45-117): initializes the frontend
state to counter 0 and empty text via one change request, sends that
request on the channel before anything else, wires the two signal
handlers, and creates an empty unblocked buffer.  Returns the doc together
with the list of requests sent on the channel during creation. -/
def Doc.new (actor : String) : Doc × List Change :=
  let fr0 := Frontend.new actor
  let (fr1, cr) := fr0.change [Op.setCounter0, Op.setTextEmpty]
  let sent := match cr with
    | some r => [r]
    | none => []
  (⟨fr1, ⟨[], false, false⟩⟩, sent)

/-- The text-rendering expression of `Doc::apply_patch` (lines 131-141):
the frontend's authoritative `text` field joined to a string; in this
model the field already is the character sequence. -/
def renderText (fr : Frontend) : List Char := fr.st.text

/-- `doc.apply_patch(patch)` (lines 120-146).  Always merges the patch
into the frontend; if the patch's actor equals the doc's own actor it
returns right away; otherwise it blocks both edit signals, re-renders the
buffer from the frontend's authoritative text value, and unblocks the
signals.  Returns the updated doc together with every edit-intent
notification the buffer fired during the call. -/
def Doc.applyPatch (d : Doc) (p : Option Patch) : Doc × List EditIntent :=
  match p with
  | none => (d, [])
  | some patch =>
    let fr := { d.frontend with st := applyOps d.frontend.st patch.ops }
    if patch.actor = some fr.actorId then
      ({ d with frontend := fr }, [])
    else
      let b1 := { d.buffer with insertBlocked := true, delBlocked := true }
      let (b2, fired) := b1.setText (renderText fr)
      let b3 := { b2 with insertBlocked := false, delBlocked := false }
      ({ frontend := fr, buffer := b3 }, fired)

/-- `doc.inc_counter()` (lines 161-171): one local change incrementing the
counter, sent to the backend.  Returns the updated doc and the requests
sent. -/
def Doc.incCounter (d : Doc) : Doc × List Change :=
  let (fr, cr) := d.frontend.change [Op.increment]
  let sent := match cr with
    | some r => [r]
    | none => []
  ({ d with frontend := fr }, sent)

/-! ### The delete-range signal handler -/

/-- One iteration of the `connect_delete_range` loop body (lines 97-107)
on the frontend's text projection: `frontend.change` with a delete at the
raw offset `i`.  A delete at an out-of-range index makes the frontend
change call fail, and the handler's `.unwrap()` panics; the failure is
modelled as `none`. -/
def applyDeleteAt (t : List Char) (i : Nat) : Option (List Char) :=
  if i < t.length then some (t.eraseIdx i) else none

/-- One iteration of the handler loop: on a still-live projection, apply
the delete and record the sent one-op change; after a panic nothing more
happens. -/
def delStep (acc : Option (List Char) × List Op) (i : Nat) : Option (List Char) × List Op :=
  match acc with
  | (none, sent) => (none, sent)
  | (some l, sent) =>
    match applyDeleteAt l i with
    | none => (none, sent)
    | some l' => (some l', sent ++ [Op.del i])

/-- The raw offsets the handler loops over: `start..finish`. -/
def rangeIdxs (start finish : Nat) : List Nat :=
  (List.range (finish - start)).map (start + ·)

/-- The `connect_delete_range` handler (lines 94-108): for each `i` in
`start..finish` it applies a delete at index `i` to the projection as
already mutated by the preceding deletes and sends the one-op change.
First component: the projection after the loop (`none` once an iteration
panicked); second: the delete operations sent, in order. -/
def deleteRange (t : List Char) (start finish : Nat) : Option (List Char) × List Op :=
  (rangeIdxs start finish).foldl delStep (some t, [])

/-- The outcome of one `recv` on a crossbeam channel: a message, or the
channel is closed (all senders dropped). -/
inductive RecvResult where
  | msg (c : Change) : RecvResult
  | closed : RecvResult
deriving DecidableEq, Repr

/-- One ready event of the `crossbeam::select!` in `backend_thread`
(lines 312-324): a recv result from `rx1`, from `rx2`, or the shutdown
signal from `closerx`. -/
inductive LoopEvent where
  | fromA (r : RecvResult) : LoopEvent
  | fromB (r : RecvResult) : LoopEvent
  | shutdownSig : LoopEvent
deriving DecidableEq, Repr

/-- What one loop iteration does: keep running with a new state after
publishing the combined patch message, return normally (the shutdown
arm's `return`), or panic (an `.unwrap()` failed: `msg.unwrap()` on a
closed channel, or `scope.try_send(..).unwrap()` when the scope is gone). -/
inductive LoopOutcome where
  | next (s : LoopState) (published : Patch × Patch) : LoopOutcome
  | exit : LoopOutcome
  | panics : LoopOutcome
deriving DecidableEq, Repr

/-- Whether the loop keeps running after the event. -/
def LoopOutcome.continues : LoopOutcome → Bool
  | LoopOutcome.next _ _ => true
  | _ => false

/-- One iteration of `backend_thread`'s select loop.  `sinkAlive` is
whether `scope.try_send` succeeds (the vgtk scope still has a receiver).
A closed inbound channel hits `msg.unwrap()`; a dead sink hits
`scope.try_send(..).unwrap()`; both panic the thread. -/
def handleEvent (s : LoopState) (ev : LoopEvent) (sinkAlive : Bool) : LoopOutcome :=
  match ev with
  | LoopEvent.fromA RecvResult.closed => LoopOutcome.panics
  | LoopEvent.fromA (RecvResult.msg c) =>
    let (s', p1, p2) := stepState s Source.A c
    if sinkAlive then LoopOutcome.next s' (p1, p2) else LoopOutcome.panics
  | LoopEvent.fromB RecvResult.closed => LoopOutcome.panics
  | LoopEvent.fromB (RecvResult.msg c) =>
    let (s', p1, p2) := stepState s Source.B c
    if sinkAlive then LoopOutcome.next s' (p1, p2) else LoopOutcome.panics
  | LoopEvent.shutdownSig => LoopOutcome.exit

/-- Running the loop over a finite trace of ready events, with the sink
alive: iterate until the trace ends, the shutdown arm returns, or an
unwrap panics; the resulting value is the backend state at the moment the
loop stops. -/
def runLoop (s : LoopState) : List LoopEvent → LoopState
  | [] => s
  | e :: rest =>
    match handleEvent s e true with
    | LoopOutcome.next s' _ => runLoop s' rest
    | _ => s

/-- An event that is a successfully received change request. -/
def LoopEvent.isReq : LoopEvent → Bool
  | LoopEvent.fromA (RecvResult.msg _) => true
  | LoopEvent.fromB (RecvResult.msg _) => true
  | _ => false

/-- The request carried by an event (meaningful on `isReq` events). -/
def applyEvent (s : LoopState) : LoopEvent → LoopState
  | LoopEvent.fromA (RecvResult.msg c) => (stepState s Source.A c).1
  | LoopEvent.fromB (RecvResult.msg c) => (stepState s Source.B c).1
  | _ => s

def applyEvents (s : LoopState) (evs : List LoopEvent) : LoopState :=
  evs.foldl applyEvent s

/-! ### The spec's wording of the synchronization step -/

/-- The synchronization step as the spec words it (§4.3): "On request from
A: apply to backend A → patchA; pull `A.changesSince(emptySet)`
[the full change log]; apply that full log to backend B as remote changes
→ patchB; publish `patchA, patchB` as one combined notification so both
projections update together.  On request from B: symmetric, roles
swapped."  Stated over the full change log directly, to be compared with
`stepState`, which goes through `get_changes(&[])`. -/
def specStep (s : LoopState) (src : Source) (c : Change) : LoopState × Patch × Patch :=
  match src with
  | Source.A =>
    let (bA, patchA) := s.backend1.applyLocalChange c
    let (bB, patchB) := s.backend2.applyChanges bA.log
    (⟨bA, bB⟩, patchA, patchB)
  | Source.B =>
    let (bB, patchB) := s.backend2.applyLocalChange c
    let (bA, patchA) := s.backend1.applyChanges bB.log
    (⟨bA, bB⟩, patchA, patchB)

/-! ### Concrete sample inputs used by the witnesses -/

def sampleChange : Change := ⟨"alice", 1, [Op.increment]⟩

def sampleChange2 : Change := ⟨"bob", 1, [Op.insertCh 0 'a']⟩

def sampleReqs : List (Source × Change) :=
  [ (Source.A, ⟨"alice", 1, [Op.setCounter0, Op.setTextEmpty]⟩),
    (Source.B, ⟨"bob", 1, [Op.setCounter0, Op.setTextEmpty]⟩),
    (Source.A, ⟨"alice", 2, [Op.insertCh 0 'a']⟩),
    (Source.B, ⟨"bob", 2, [Op.increment]⟩) ]

theorem getChanges_nil (b : Backend) : b.getChanges [] = b.log := by
  simp [Backend.getChanges]

/-! ## Claim theorems -/

/-- C2: for every request received from replica A's channel, the loop
applies it as a local change to backend A yielding patchA, retrieves
backend A's full change log (empty dependency set), applies that log to
backend B as remote changes yielding patchB, and publishes both patches
as one combined notification; a request from B is handled symmetrically.
`stepState` (the select-arm bodies of `backend_thread`) coincides with
`specStep`, the spec's wording of the step. -/
theorem step_matches_spec (s : LoopState) (src : Source) (c : Change) :
    stepState s src c = specStep s src c := by
  cases src <;>
    simp [stepState, specStep, Backend.applyLocalChange, getChanges_nil]

/-- C9: creating a replica initializes its document state to counter 0 and
empty text and an empty unblocked buffer, and the only request sent on the
channel during creation is the initial change request (sequence number 1)
encoding that initialization; any later request from this replica carries
a higher sequence number (the frontend's next sequence is 2). -/
theorem doc_new_initializes (actor : String) :
    (Doc.new actor).1.frontend.st = ⟨0, []⟩ ∧
    (Doc.new actor).1.buffer = ⟨[], false, false⟩ ∧
    (Doc.new actor).2 = [⟨actor, 1, [Op.setCounter0, Op.setTextEmpty]⟩] ∧
    (Doc.new actor).1.frontend.seq = 2 ∧
    ((Doc.new actor).1.incCounter).2 = [⟨actor, 2, [Op.increment]⟩] :=
  ⟨rfl, rfl, rfl, rfl, rfl⟩

/-- C3: `apply_patch` always merges the patch's operations into the
replica's frontend state; when the patch's actor equals the replica's own
actor identifier it returns right away — the buffer is untouched and no
edit-intent notification fires, so no new outbound change request can be
triggered. -/
theorem apply_patch_echo_suppression (d : Doc) (p : Patch)
    (h : p.actor = some d.frontend.actorId) :
    Doc.applyPatch d (some p) =
      ({ d with frontend := { d.frontend with st := applyOps d.frontend.st p.ops } },
        []) := by
  simp [Doc.applyPatch, h]

theorem apply_patch_echo_suppression_witness :
    Doc.applyPatch (Doc.new "alice").1 (some ⟨some "alice", [Op.increment]⟩) =
      ({ (Doc.new "alice").1 with frontend :=
          { (Doc.new "alice").1.frontend with
              st := applyOps (Doc.new "alice").1.frontend.st [Op.increment] } },
        []) :=
  apply_patch_echo_suppression (Doc.new "alice").1 ⟨some "alice", [Op.increment]⟩ rfl

/-- C4: when a replica applies a patch tagged with a different actor (or
no actor), it re-renders the buffer from the frontend's authoritative text
value with both edit signals blocked for the whole programmatic update, so
the update fires no edit-intent notification (no re-entry into the edit
handlers, no outbound request) and leaves the signals unblocked
afterwards.  Had the signals not been blocked, the very same `set_text`
would have fired edit intents — the second conjunct shows the suppression
window is what prevents the feedback loop. -/
theorem apply_patch_rerender_suppressed (d : Doc) (p : Patch)
    (h : p.actor ≠ some d.frontend.actorId) :
    Doc.applyPatch d (some p) =
      (⟨{ d.frontend with st := applyOps d.frontend.st p.ops },
        ⟨renderText { d.frontend with st := applyOps d.frontend.st p.ops },
          false, false⟩⟩,
        []) ∧
    (d.buffer.insertBlocked = false →
      (d.buffer.setText
        (renderText { d.frontend with st := applyOps d.frontend.st p.ops })).2 ≠ []) := by
  constructor
  · simp [Doc.applyPatch, GtkBuffer.setText, h]
  · intro hins
    simp [GtkBuffer.setText, hins]

theorem apply_patch_rerender_suppressed_witness :
    Doc.applyPatch (Doc.new "alice").1 (some ⟨none, [Op.insertCh 0 'x']⟩) =
      (⟨{ (Doc.new "alice").1.frontend with
            st := applyOps (Doc.new "alice").1.frontend.st [Op.insertCh 0 'x'] },
        ⟨renderText { (Doc.new "alice").1.frontend with
            st := applyOps (Doc.new "alice").1.frontend.st [Op.insertCh 0 'x'] },
          false, false⟩⟩,
        []) :=
  (apply_patch_rerender_suppressed (Doc.new "alice").1 ⟨none, [Op.insertCh 0 'x']⟩
    (by simp)).1

/-- C5 counterexample: when the patch-delivery sink is gone
(`scope.try_send` fails), the loop does not drop the patch silently and
continue — the `.unwrap()` on line 316 panics the backend thread.
Evaluated at a concrete state and request. -/
theorem patch_delivery_failure_cex :
    (handleEvent initLoopState (LoopEvent.fromA (RecvResult.msg sampleChange))
        false).continues = false ∧
    handleEvent initLoopState (LoopEvent.fromA (RecvResult.msg sampleChange)) false =
      LoopOutcome.panics :=
  ⟨rfl, rfl⟩

/-- C5 amended: if delivery of a combined patch notification fails because
the destination has been torn down, the synchronization loop panics (the
unwrap on `scope.try_send` aborts the backend thread) instead of dropping
the patch silently and continuing, for requests from either channel. -/
theorem patch_delivery_failure_panics (s : LoopState) (c : Change) :
    handleEvent s (LoopEvent.fromA (RecvResult.msg c)) false = LoopOutcome.panics ∧
    handleEvent s (LoopEvent.fromB (RecvResult.msg c)) false = LoopOutcome.panics :=
  ⟨rfl, rfl⟩

/-- C6 counterexample: when an inbound request channel is closed, the loop
does not terminate gracefully (the shutdown arm's `return`, `exit` in the
model) — `msg.unwrap()` panics the backend thread.  Evaluated at a
concrete state. -/
theorem channel_closed_cex :
    handleEvent initLoopState (LoopEvent.fromA RecvResult.closed) true =
      LoopOutcome.panics ∧
    ¬ handleEvent initLoopState (LoopEvent.fromA RecvResult.closed) true =
      LoopOutcome.exit := by
  constructor
  · rfl
  · decide

/-- C6 amended: if an inbound request channel is unexpectedly closed, the
synchronization loop panics on `msg.unwrap()` (terminating the backend
thread by panic) rather than returning gracefully, whatever the state of
the patch sink. -/
theorem channel_closed_panics (s : LoopState) (alive : Bool) :
    handleEvent s (LoopEvent.fromA RecvResult.closed) alive = LoopOutcome.panics ∧
    handleEvent s (LoopEvent.fromB RecvResult.closed) alive = LoopOutcome.panics :=
  ⟨rfl, rfl⟩

/-- C8: on the single no-payload shutdown signal the loop returns after
finishing the request it is processing: every request event that arrived
before the shutdown signal is fully applied (no rollback), the shutdown
arm returns, and no event after the shutdown signal is processed — the
resulting state does not depend on `post`.  (The owning process then
blocks on `backend_thread.join()`, `src/main.rs` lines 330-331.) -/
theorem shutdown_clean (s : LoopState) (pre post : List LoopEvent)
    (h : ∀ e ∈ pre, e.isReq = true) :
    runLoop s (pre ++ LoopEvent.shutdownSig :: post) = applyEvents s pre := by
  induction pre generalizing s with
  | nil =>
    simp only [List.nil_append]
    rfl
  | cons e rest ih =>
    have he : e.isReq = true := h e (by simp)
    have hrest : ∀ x ∈ rest, x.isReq = true := fun x hx => h x (by simp [hx])
    cases e with
    | fromA r =>
      cases r with
      | msg c =>
        show runLoop ((stepState s Source.A c).1) (rest ++ LoopEvent.shutdownSig :: post) =
          applyEvents ((stepState s Source.A c).1) rest
        exact ih (stepState s Source.A c).1 hrest
      | closed => simp [LoopEvent.isReq] at he
    | fromB r =>
      cases r with
      | msg c =>
        show runLoop ((stepState s Source.B c).1) (rest ++ LoopEvent.shutdownSig :: post) =
          applyEvents ((stepState s Source.B c).1) rest
        exact ih (stepState s Source.B c).1 hrest
      | closed => simp [LoopEvent.isReq] at he
    | shutdownSig => simp [LoopEvent.isReq] at he

theorem addChange_mem (b : Backend) (c : Change)
    (h : c.changeId ∈ b.log.map Change.changeId) :
    b.addChange c = b := by
  obtain ⟨d, hd, hid⟩ := List.mem_map.mp h
  rw [Backend.addChange, if_pos]
  rw [List.any_eq_true]
  exact ⟨d, hd, by simp [hid]⟩

theorem addChange_fresh (b : Backend) (c : Change)
    (h : ¬ c.changeId ∈ b.log.map Change.changeId) :
    b.addChange c = ⟨b.log ++ [c]⟩ := by
  rw [Backend.addChange, if_neg]
  rw [List.any_eq_true]
  rintro ⟨d, hd, hid⟩
  exact h (List.mem_map.mpr ⟨d, hd, by simpa using hid⟩)

theorem foldl_addChange_absorb (cs : List Change) (b : Backend)
    (h : ∀ d ∈ cs, d.changeId ∈ b.log.map Change.changeId) :
    cs.foldl Backend.addChange b = b := by
  induction cs with
  | nil => rfl
  | cons d rest ih =>
    rw [List.foldl_cons, addChange_mem b d (h d (by simp))]
    exact ih fun x hx => h x (by simp [hx])

theorem applyChanges_snoc_self (b : Backend) (c : Change)
    (h : ¬ c.changeId ∈ b.log.map Change.changeId) :
    (b.applyChanges (b.log ++ [c])).1 = ⟨b.log ++ [c]⟩ := by
  have habs : b.log.foldl Backend.addChange b = b :=
    foldl_addChange_absorb b.log b (fun d hd => List.mem_map_of_mem _ hd)
  show (b.log ++ [c]).foldl Backend.addChange b = ⟨b.log ++ [c]⟩
  rw [List.foldl_append, habs, List.foldl_cons, List.foldl_nil, addChange_fresh b c h]

theorem step_preserves_sync (s : LoopState) (src : Source) (c : Change)
    (hlog : s.backend1.log = s.backend2.log)
    (hfresh : ¬ c.changeId ∈ s.backend1.log.map Change.changeId) :
    (stepState s src c).1.backend1.log = s.backend1.log ++ [c] ∧
    (stepState s src c).1.backend2.log = s.backend1.log ++ [c] := by
  cases src with
  | A =>
    constructor
    · rfl
    · show ((s.backend2.applyChanges
        ((Backend.mk (s.backend1.log ++ [c])).getChanges [])).1).log =
        s.backend1.log ++ [c]
      rw [getChanges_nil]
      show ((s.backend2.applyChanges (s.backend1.log ++ [c])).1).log =
        s.backend1.log ++ [c]
      rw [hlog, applyChanges_snoc_self s.backend2 c (hlog ▸ hfresh)]
  | B =>
    constructor
    · show ((s.backend1.applyChanges
        ((Backend.mk (s.backend2.log ++ [c])).getChanges [])).1).log =
        s.backend1.log ++ [c]
      rw [getChanges_nil]
      show ((s.backend1.applyChanges (s.backend2.log ++ [c])).1).log =
        s.backend1.log ++ [c]
      rw [← hlog, applyChanges_snoc_self s.backend1 c hfresh]
    · show s.backend2.log ++ [c] = s.backend1.log ++ [c]
      rw [hlog]

theorem runRequests_sync (reqs : List (Source × Change)) : ∀ (s : LoopState),
    s.backend1.log = s.backend2.log →
    (∀ r ∈ reqs, ¬ r.2.changeId ∈ s.backend1.log.map Change.changeId) →
    (reqs.map (fun r => r.2.changeId)).Nodup →
    (runRequests s reqs).backend1.log = (runRequests s reqs).backend2.log := by
  induction reqs with
  | nil => intro s hlog _ _; exact hlog
  | cons r rest ih =>
    intro s hlog hfresh hnodup
    obtain ⟨src, c⟩ := r
    have hc : ¬ c.changeId ∈ s.backend1.log.map Change.changeId :=
      hfresh (src, c) (by simp)
    obtain ⟨h1, h2⟩ := step_preserves_sync s src c hlog hc
    have hnodup' : (rest.map (fun r => r.2.changeId)).Nodup :=
      (List.nodup_cons.mp hnodup).2
    have hhead : ¬ c.changeId ∈ rest.map (fun r => r.2.changeId) :=
      (List.nodup_cons.mp hnodup).1
    have hfresh' : ∀ x ∈ rest,
        ¬ x.2.changeId ∈ (stepState s src c).1.backend1.log.map Change.changeId := by
      intro x hx
      rw [h1, List.map_append]
      simp only [List.mem_append, List.map_cons, List.map_nil, List.mem_singleton,
        not_or]
      refine ⟨hfresh x (by simp [hx]), ?_⟩
      intro hcon
      exact hhead (List.mem_map.mpr ⟨x, hx, hcon⟩)
    have hlog' : (stepState s src c).1.backend1.log = (stepState s src c).1.backend2.log := by
      rw [h1, h2]
    show (runRequests ((stepState s src c).1) rest).backend1.log =
      (runRequests ((stepState s src c).1) rest).backend2.log
    exact ih (stepState s src c).1 hlog' hfresh' hnodup'

/-- C1: convergence.  For any interleaving of local edits (each a change
request with automerge's unique `(actor, seq)` identity) split arbitrarily
across the two replicas' channels, once the synchronization loop has
drained and cross-propagated all submitted requests, both backends report
identical counter and text values. -/
theorem convergence_after_drain (reqs : List (Source × Change))
    (hnodup : (reqs.map (fun r => r.2.changeId)).Nodup) :
    (runRequests initLoopState reqs).backend1.state.counter =
      (runRequests initLoopState reqs).backend2.state.counter ∧
    (runRequests initLoopState reqs).backend1.state.text =
      (runRequests initLoopState reqs).backend2.state.text := by
  have hlog : (runRequests initLoopState reqs).backend1.log =
      (runRequests initLoopState reqs).backend2.log :=
    runRequests_sync reqs initLoopState rfl
      (by intro r hr; simp [initLoopState, Backend.init]) hnodup
  have hstate : (runRequests initLoopState reqs).backend1.state =
      (runRequests initLoopState reqs).backend2.state := by
    rw [Backend.state, Backend.state, hlog]
  exact ⟨by rw [hstate], by rw [hstate]⟩

theorem convergence_after_drain_witness :
    (runRequests initLoopState sampleReqs).backend1.state.counter =
      (runRequests initLoopState sampleReqs).backend2.state.counter ∧
    (runRequests initLoopState sampleReqs).backend1.state.text =
      (runRequests initLoopState sampleReqs).backend2.state.text :=
  convergence_after_drain sampleReqs (by decide)

theorem shutdown_clean_witness :
    runLoop initLoopState
      ([LoopEvent.fromA (RecvResult.msg sampleChange)] ++ LoopEvent.shutdownSig ::
        [LoopEvent.fromB (RecvResult.msg sampleChange2)]) =
      applyEvents initLoopState [LoopEvent.fromA (RecvResult.msg sampleChange)] :=
  shutdown_clean initLoopState [LoopEvent.fromA (RecvResult.msg sampleChange)]
    [LoopEvent.fromB (RecvResult.msg sampleChange2)] (by decide)

end AutomergeDemo
